import Mathlib

/-!
Shallow embedding of the core of the rsb HTTP benchmarking tool
(src/limiter.rs, src/dispatcher.rs, src/statistics.rs), with theorems
settling the specification claims about it.

Modelling conventions:
* machine integers (`u64`, `u16`, `u32`) become `Nat`; none of the embedded
  code paths can overflow on the inputs the claims quantify over;
* `Instant` and `Duration` become `Nat` nanosecond counts; `as_secs()` is
  truncating division by `10^9`, exactly as in Rust;
* `f64` quotients of integer-valued quantities become `ℚ`; a non-finite
  `f64` result (NaN or infinity, arising only from a zero divisor) is
  modelled as `none`;
* a Rust `panic!` (e.g. `Option::unwrap` on `None`) is modelled by the
  function returning `none`;
* the rate-limiter spin loop in `apply_token` takes an oracle
  `allows : List Bool` of `allow_fast` outcomes; `none` means the loop has
  not resolved within the oracle (it is still spinning).
-/

namespace Rsb

/-- Limiter (src/limiter.rs). The `governor` internals are external; the
embedded content of `Limiter::new` is the `NonZeroU32::new(rate).unwrap()`
call, which panics (`none`) exactly when `rate = 0`. -/
structure Limiter where
  rate : Nat
  deriving DecidableEq

/-- Limiter::new — panics (returns `none`) when the rate is zero. -/
def Limiter.new (rate : Nat) : Option Limiter :=
  if rate = 0 then none else some ⟨rate⟩

/-- new_limiter (src/dispatcher.rs): builds the optional limiter; when a rate
is present it constructs `Limiter::new(rate)` (panicking on 0) and drains the
initial tokens (a no-op on the model state). -/
def new_limiter (rate : Option Nat) : Option (Option Limiter) :=
  match rate with
  | none => some none
  | some r => (Limiter.new r).map some

/-- CountDispatcher state (src/dispatcher.rs). Atomics become plain fields:
in the sequential model every operation is an atomic step. -/
structure CountDispatcher where
  total : Nat
  applied : Nat
  completed : Nat
  is_canceled : Bool
  is_done : Bool
  limiter : Option Limiter
  deriving DecidableEq

/-- CountDispatcher::new. `none` models the construction panic propagated
from `new_limiter` when the rate is `Some(0)`. -/
def CountDispatcher.new (total : Nat) (rate : Option Nat) :
    Option CountDispatcher :=
  (new_limiter rate).map fun l =>
    { total := total, applied := 0, completed := 0,
      is_canceled := false, is_done := false, limiter := l }

/-- CountDispatcher::is_canceled_or_done. -/
def CountDispatcher.is_canceled_or_done (s : CountDispatcher) : Bool :=
  s.is_done || s.is_canceled

/-- Dispatcher::apply_token for the count variant: false immediately when
canceled or done; with no limiter, true; with a limiter, spin on the
`allows` oracle until a token is granted (`none` if the oracle never
grants one — the loop is still spinning). -/
def CountDispatcher.apply_token (s : CountDispatcher) (allows : List Bool) :
    Option Bool :=
  if s.is_canceled_or_done then some false
  else
    match s.limiter with
    | none => some true
    | some _ => if allows.contains true then some true else none

/-- CountDispatcher::try_apply_job: gate on `apply_token`, then check
`applied < total`, then `fetch_add` on `applied` and void the admission if
the previous value was already `≥ total`. -/
def CountDispatcher.try_apply_job (s : CountDispatcher) (allows : List Bool) :
    Option (Bool × CountDispatcher) :=
  match s.apply_token allows with
  | none => none
  | some false => some (false, s)
  | some true =>
    if s.applied < s.total then
      let previous := s.applied
      let s' := { s with applied := s.applied + 1 }
      if s.total ≤ previous then some (false, s') else some (true, s')
    else some (false, s)

/-- CountDispatcher::complete_job: increment `completed`; latch `is_done`
once `completed ≥ total`. -/
def CountDispatcher.complete_job (s : CountDispatcher) : CountDispatcher :=
  let s' := { s with completed := s.completed + 1 }
  if s'.total ≤ s'.completed ∧ s'.is_done = false then
    { s' with is_done := true }
  else s'

/-- CountDispatcher::cancel: set `is_canceled` if not already set. -/
def CountDispatcher.cancel (s : CountDispatcher) : CountDispatcher :=
  if s.is_canceled then s else { s with is_canceled := true }

/-- CountDispatcher::get_process: `1.0` when done, else
`completed as f64 / total as f64`; the `total = 0` case yields a non-finite
f64 (NaN or infinity), modelled as `none`. -/
def CountDispatcher.get_process (s : CountDispatcher) : Option ℚ :=
  if s.is_done then some 1
  else if s.total = 0 then none
  else some ((s.completed : ℚ) / (s.total : ℚ))

/-- Nanoseconds per second: `Duration::as_secs` divides by this. -/
def nanosPerSec : Nat := 1000000000

/-- DurationDispatcher state (src/dispatcher.rs). `start`, `canceled_at`
are `Instant`s and `duration` a `Duration`, all in nanoseconds. -/
structure DurationDispatcher where
  total : Nat
  start : Nat
  duration : Nat
  limiter : Option Limiter
  is_canceled : Bool
  canceled_at : Option Nat
  is_done : Bool
  deriving DecidableEq

/-- DurationDispatcher::new at instant `now`. `none` models the
construction panic propagated from `new_limiter` when the rate is
`Some(0)`. -/
def DurationDispatcher.new (now duration : Nat) (rate : Option Nat) :
    Option DurationDispatcher :=
  (new_limiter rate).map fun l =>
    { total := 0, start := now, duration := duration, limiter := l,
      is_canceled := false, canceled_at := none, is_done := false }

/-- DurationDispatcher::is_canceled_or_done. -/
def DurationDispatcher.is_canceled_or_done (s : DurationDispatcher) : Bool :=
  s.is_done || s.is_canceled

/-- Dispatcher::apply_token for the duration variant (same default method
as the count variant). -/
def DurationDispatcher.apply_token (s : DurationDispatcher)
    (allows : List Bool) : Option Bool :=
  if s.is_canceled_or_done then some false
  else
    match s.limiter with
    | none => some true
    | some _ => if allows.contains true then some true else none

/-- DurationDispatcher::try_apply_job at instant `now`: gate on
`apply_token`, refuse when the elapsed time has reached `duration`, else
increment `total` and admit. -/
def DurationDispatcher.try_apply_job (s : DurationDispatcher)
    (allows : List Bool) (now : Nat) : Option (Bool × DurationDispatcher) :=
  match s.apply_token allows with
  | none => none
  | some false => some (false, s)
  | some true =>
    if s.duration ≤ now - s.start then some (false, s)
    else some (true, { s with total := s.total + 1 })

/-- DurationDispatcher::complete_job at instant `now`: latch `is_done` once
the elapsed time has reached `duration`. -/
def DurationDispatcher.complete_job (s : DurationDispatcher) (now : Nat) :
    DurationDispatcher :=
  if s.duration ≤ now - s.start ∧ s.is_done = false then
    { s with is_done := true }
  else s

/-- DurationDispatcher::cancel at instant `now`: on the first cancel, set
`is_canceled` and record `canceled_at`; later cancels change nothing. -/
def DurationDispatcher.cancel (s : DurationDispatcher) (now : Nat) :
    DurationDispatcher :=
  if s.is_canceled then s
  else { s with is_canceled := true, canceled_at := some now }

/-- The whole-second run time used by DurationDispatcher::get_process:
`canceled_at − start` when canceled with a recorded cancel instant, else
`now − start`, truncated to seconds by `as_secs`. -/
def DurationDispatcher.run_secs (s : DurationDispatcher) (now : Nat) : Nat :=
  match s.is_canceled, s.canceled_at with
  | true, some c => (c - s.start) / nanosPerSec
  | _, _ => (now - s.start) / nanosPerSec

/-- DurationDispatcher::get_process at instant `now`: `1.0` when done, else
`run_secs as f64 / duration.as_secs() as f64`; a zero-second duration yields
a non-finite f64, modelled as `none`. -/
def DurationDispatcher.get_process (s : DurationDispatcher) (now : Nat) :
    Option ℚ :=
  if s.is_done then some 1
  else if s.duration / nanosPerSec = 0 then none
  else some ((s.run_secs now : ℚ) / ((s.duration / nanosPerSec : Nat) : ℚ))

/-! ### Count-mode admission under contention (src/dispatcher.rs, try_apply_job)

Concurrent executions of `CountDispatcher::try_apply_job` are modelled by
their interleaved atomic events on the SeqCst `applied` counter. Each call
that reaches the variant-specific admission step produces one event:
either its `applied.load` already observed a value `≥ total` and it
returned false without touching the counter (`gate`), or it executed the
`fetch_add` (`fadd`) — the linearization point — and returned
`previous < total`. -/

/-- One atomic admission event on the shared `applied` counter. -/
inductive AdmissionEvent where
  | gate
  | fadd
  deriving DecidableEq

/-- Results of the admission calls along an event trace, threading the
value of `applied` (the `fadd` at counter value `a` returns
`previous < total` with `previous = a` and bumps the counter). -/
def admissionResults (total : Nat) : List AdmissionEvent → Nat → List Bool
  | [], _ => []
  | .gate :: es, a => false :: admissionResults total es a
  | .fadd :: es, a => decide (a < total) :: admissionResults total es (a + 1)

/-- Number of `fadd` events (calls reaching the fetch_add) in a trace. -/
def fadds : List AdmissionEvent → Nat
  | [] => 0
  | .gate :: es => fadds es
  | .fadd :: es => fadds es + 1

/-- A trace is realizable when every `gate` event occurs while the counter
already holds a value `≥ total` (that is what the guarding load observed). -/
def gateValid (total : Nat) : List AdmissionEvent → Nat → Bool
  | [], _ => true
  | .gate :: es, a => decide (total ≤ a) && gateValid total es a
  | .fadd :: es, a => gateValid total es (a + 1)

/-! ### Statistics aggregator (src/statistics.rs) -/

/-- The six HTTP status buckets of the aggregator. -/
inductive Bucket where
  | b1xx
  | b2xx
  | b3xx
  | b4xx
  | b5xx
  | others
  deriving DecidableEq

/-- The bucket selected by the match in Statistics::statistics_rsp_code:
guards are tried top to bottom with inclusive-low/exclusive-high bounds,
except the 5xx arm which is `≤ 511` inclusive. -/
def classify (code : Nat) : Bucket :=
  if 100 ≤ code ∧ code < 200 then .b1xx
  else if 200 ≤ code ∧ code < 300 then .b2xx
  else if 300 ≤ code ∧ code < 400 then .b3xx
  else if 400 ≤ code ∧ code < 500 then .b4xx
  else if 500 ≤ code ∧ code ≤ 511 then .b5xx
  else .others

/-- A reqwest::Error as consumed by the aggregator: its `source()` (the
canonical message, `None` when the error has no underlying source) and its
optional HTTP status. -/
structure ReqwestError where
  source : Option String
  status : Option Nat
  deriving DecidableEq

/-- The outcome carried by a Message: a Response (abstracted to its status
code, the only part the aggregator reads) or a reqwest::Error. -/
inductive Outcome where
  | ok (status : Nat)
  | err (e : ReqwestError)
  deriving DecidableEq

/-- Message (src/statistics.rs): per-request outcome record. -/
structure Message where
  rsp_at : Nat
  req_at : Nat
  response : Outcome
  deriving DecidableEq

/-- The aggregator state fields touched by message handling
(src/statistics.rs, struct Statistics). The error histogram HashMap is
modelled as an association list. -/
structure Statistics where
  rsp1xx : Nat
  rsp2xx : Nat
  rsp3xx : Nat
  rsp4xx : Nat
  rsp5xx : Nat
  rsp_others : Nat
  errors : List (String × Nat)
  total : Nat
  total_success : Nat
  current_cumulative : Nat
  used_time : List Nat
  deriving DecidableEq

/-- Statistics::new — all counters zero, all containers empty. -/
def Statistics.new : Statistics :=
  { rsp1xx := 0, rsp2xx := 0, rsp3xx := 0, rsp4xx := 0, rsp5xx := 0,
    rsp_others := 0, errors := [], total := 0, total_success := 0,
    current_cumulative := 0, used_time := [] }

/-- Read one bucket counter. -/
def Statistics.bucket (s : Statistics) : Bucket → Nat
  | .b1xx => s.rsp1xx
  | .b2xx => s.rsp2xx
  | .b3xx => s.rsp3xx
  | .b4xx => s.rsp4xx
  | .b5xx => s.rsp5xx
  | .others => s.rsp_others

/-- Statistics::statistics_rsp_code: increment the counter of the bucket
the status code falls into. -/
def statistics_rsp_code (s : Statistics) (code : Nat) : Statistics :=
  match classify code with
  | .b1xx => { s with rsp1xx := s.rsp1xx + 1 }
  | .b2xx => { s with rsp2xx := s.rsp2xx + 1 }
  | .b3xx => { s with rsp3xx := s.rsp3xx + 1 }
  | .b4xx => { s with rsp4xx := s.rsp4xx + 1 }
  | .b5xx => { s with rsp5xx := s.rsp5xx + 1 }
  | .others => { s with rsp_others := s.rsp_others + 1 }

/-- HashMap `entry(k).and_modify(+1).or_insert(1)` on the association-list
model of the error histogram. -/
def bump_error : List (String × Nat) → String → List (String × Nat)
  | [], key => [(key, 1)]
  | (k, v) :: rest, key =>
    if k = key then (k, v + 1) :: rest else (k, v) :: bump_error rest key

/-- Statistics::handle_resp_error. The first statement evaluates
`err.source().as_ref().unwrap()`: when the error has no source this
unwrap panics, modelled as `none`. Otherwise the histogram entry for the
source message is bumped and, if the error carries an HTTP status, the
status is classified into its bucket. -/
def handle_resp_error (s : Statistics) (err : ReqwestError) :
    Option Statistics :=
  match err.source with
  | none => none
  | some msg =>
    let s1 := { s with errors := bump_error s.errors msg }
    match err.status with
    | some status => some (statistics_rsp_code s1 status)
    | none => some s1

/-- Statistics::handle_message: bump `total`; on an error outcome delegate
to `handle_resp_error` and return; on a success classify the status, bump
`total_success` and `current_cumulative`, and append the latency sample. -/
def handle_message (s : Statistics) (m : Message) : Option Statistics :=
  let s1 := { s with total := s.total + 1 }
  match m.response with
  | .err e => handle_resp_error s1 e
  | .ok status =>
    let s2 := statistics_rsp_code s1 status
    some { s2 with
            total_success := s2.total_success + 1,
            current_cumulative := s2.current_cumulative + 1,
            used_time := s2.used_time ++ [m.rsp_at - m.req_at] }

/-- Statistics::calculate_max_per_second: `req_per_second.iter().max()`
over the FULL sample vector; when the vector is empty the field keeps its
current value. -/
def calculate_max_per_second (req_per_second : List Nat) (current : ℚ) :
    ℚ :=
  match req_per_second.max? with
  | some m => (m : ℚ)
  | none => current

/-- The trimming applied by calculate_avg_per_second and
calculate_stdev_per_second: drop the final (partial) sample when more than
two samples exist. -/
def trimLastSample (s : List Nat) : List Nat :=
  if 2 < s.length then s.take (s.length - 1) else s

/-- Statistics::calculate_avg_per_second: mean over the TRIMMED sample;
no-op on an empty vector. -/
def calculate_avg_per_second (req_per_second : List Nat) (current : ℚ) :
    ℚ :=
  if req_per_second = [] then current
  else
    let origin := trimLastSample req_per_second
    (origin.sum : ℚ) / (origin.length : ℚ)

/-- Maximum over the trimmed sample — this is what the spec sentence
"max_rps = max(S′)" prescribes; stated for comparison with
`calculate_max_per_second`, which the code computes over the full vector. -/
def specMaxRps (s : List Nat) (current : ℚ) : ℚ :=
  match (trimLastSample s).max? with
  | some m => (m : ℚ)
  | none => current

/-- Statistics::calculate_latencies: for each requested percentile, take
`percent_len = (count as f32 * percent) as usize` (floor of the product;
the truncating float-to-usize cast saturates at 0 for non-positive
values, matching `Nat.floor` on `ℚ`), skip it when `percent_len > count`
or `percent_len = 0`, else push the pair of the percentile and the mean
(truncating Duration division) of the lowest `percent_len` sorted
samples. Latencies carry nanosecond `Nat` values. -/
def calculate_latencies (used_time : List Nat) (percentiles : List ℚ) :
    List (ℚ × Nat) :=
  if used_time = [] then []
  else
    let sorted := used_time.mergeSort (fun a b => a ≤ b)
    let count := used_time.length
    percentiles.foldl
      (fun latencies percent =>
        let percent_len := ⌊(count : ℚ) * percent⌋₊
        if count < percent_len ∨ percent_len = 0 then latencies
        else
          latencies ++
            [(percent, (sorted.take percent_len).sum / percent_len)])
      []

/-- The worker protocol of src/task.rs applied to a count dispatcher: a
worker calls `try_apply_job`; only after a successful admission does it
later call `complete_job` (the in-flight count `n` tracks admissions not
yet completed); `cancel` may arrive at any time. -/
inductive CountReach (total : Nat) (rate : Option Nat) :
    CountDispatcher → Nat → Prop where
  | init (s : CountDispatcher) :
      CountDispatcher.new total rate = some s → CountReach total rate s 0
  | try_step (s : CountDispatcher) (n : Nat) (allows : List Bool)
      (r : Bool) (s' : CountDispatcher) :
      CountReach total rate s n →
      s.try_apply_job allows = some (r, s') →
      CountReach total rate s' (if r then n + 1 else n)
  | complete_step (s : CountDispatcher) (n : Nat) :
      CountReach total rate s (n + 1) →
      CountReach total rate s.complete_job n
  | cancel_step (s : CountDispatcher) (n : Nat) :
      CountReach total rate s n → CountReach total rate s.cancel n

/-- The percentile entry prescribed by the spec sentence: with
`k = ⌊|L|·p⌋`, emit `(p, mean(L[0..k]))` when `0 < k ≤ |L|`, else skip.
Stated from the spec wording, for comparison with `calculate_latencies`. -/
def specLatency (count : Nat) (sorted : List Nat) (p : ℚ) :
    Option (ℚ × Nat) :=
  let k := ⌊(count : ℚ) * p⌋₊
  if 0 < k ∧ k ≤ count then some (p, (sorted.take k).sum / k) else none

/-! ## Helper lemmas -/

theorem foldl_max_mem (as : List Nat) (a : Nat) :
    as.foldl max a = a ∨ as.foldl max a ∈ as := by
  induction as generalizing a with
  | nil => exact Or.inl rfl
  | cons b bs ih =>
    simp only [List.foldl_cons]
    rcases ih (max a b) with h | h
    · rcases Nat.le_total a b with hab | hba
      · right
        rw [h, Nat.max_eq_right hab]
        exact List.mem_cons_self b bs
      · left
        rw [h, Nat.max_eq_left hba]
    · right
      exact List.mem_cons_of_mem b h

theorem le_foldl_max (as : List Nat) (a : Nat) :
    a ≤ as.foldl max a ∧ ∀ x ∈ as, x ≤ as.foldl max a := by
  induction as generalizing a with
  | nil => simp
  | cons b bs ih =>
    simp only [List.foldl_cons]
    obtain ⟨h1, h2⟩ := ih (max a b)
    refine ⟨le_trans (Nat.le_max_left a b) h1, ?_⟩
    intro x hx
    rcases List.mem_cons.mp hx with rfl | hx
    · exact le_trans (Nat.le_max_right a x) h1
    · exact h2 x hx

theorem bucket_statistics_rsp_code (s : Statistics) (cd : Nat) (b : Bucket) :
    (statistics_rsp_code s cd).bucket b
      = s.bucket b + (if b = classify cd then 1 else 0) := by
  rcases hcl : classify cd <;> rcases b <;>
    simp [statistics_rsp_code, hcl, Statistics.bucket]

theorem statistics_rsp_code_preserves (s : Statistics) (cd : Nat) :
    (statistics_rsp_code s cd).errors = s.errors ∧
    (statistics_rsp_code s cd).total = s.total ∧
    (statistics_rsp_code s cd).total_success = s.total_success ∧
    (statistics_rsp_code s cd).current_cumulative = s.current_cumulative ∧
    (statistics_rsp_code s cd).used_time = s.used_time := by
  rcases hcl : classify cd <;> simp [statistics_rsp_code, hcl]

theorem cancel_count_canceled (s : CountDispatcher) :
    s.cancel.is_canceled = true := by
  unfold CountDispatcher.cancel
  split
  · assumption
  · rfl

theorem cancel_duration_canceled (s : DurationDispatcher) (t : Nat) :
    (s.cancel t).is_canceled = true := by
  unfold DurationDispatcher.cancel
  split
  · assumption
  · rfl

theorem cancel_count_of_canceled (s : CountDispatcher)
    (h : s.is_canceled = true) : s.cancel = s := by
  simp [CountDispatcher.cancel, h]

theorem cancel_duration_of_canceled (s : DurationDispatcher)
    (h : s.is_canceled = true) (t : Nat) : s.cancel t = s := by
  simp [DurationDispatcher.cancel, h]

theorem try_apply_job_count_canceled (s : CountDispatcher)
    (h : s.is_canceled = true) (allows : List Bool) :
    s.try_apply_job allows = some (false, s) := by
  simp [CountDispatcher.try_apply_job, CountDispatcher.apply_token,
        CountDispatcher.is_canceled_or_done, h]

theorem try_apply_job_duration_canceled (s : DurationDispatcher)
    (h : s.is_canceled = true) (allows : List Bool) (now : Nat) :
    s.try_apply_job allows now = some (false, s) := by
  simp [DurationDispatcher.try_apply_job, DurationDispatcher.apply_token,
        DurationDispatcher.is_canceled_or_done, h]

/-! ## Claim theorems -/

/-- C8: every HTTP status code is classified into exactly one bucket, with
inclusive-low/exclusive-high ranges [100,200)→1xx, [200,300)→2xx,
[300,400)→3xx, [400,500)→4xx, [500,511] inclusive→5xx, and every other
code→others; in particular the codes 100, 199, 200, 299, 300, 399, 400,
499, 500, 511, 599 land in 1xx, 1xx, 2xx, 2xx, 3xx, 3xx, 4xx, 4xx, 5xx,
5xx, others respectively. -/
theorem status_classification (s : Statistics) (c : Nat) :
    (∀ b, (statistics_rsp_code s c).bucket b
        = s.bucket b + (if b = classify c then 1 else 0)) ∧
    ((100 ≤ c ∧ c < 200) → classify c = Bucket.b1xx) ∧
    ((200 ≤ c ∧ c < 300) → classify c = Bucket.b2xx) ∧
    ((300 ≤ c ∧ c < 400) → classify c = Bucket.b3xx) ∧
    ((400 ≤ c ∧ c < 500) → classify c = Bucket.b4xx) ∧
    ((500 ≤ c ∧ c ≤ 511) → classify c = Bucket.b5xx) ∧
    ((c < 100 ∨ 512 ≤ c) → classify c = Bucket.others) ∧
    (classify 100 = Bucket.b1xx ∧ classify 199 = Bucket.b1xx ∧
     classify 200 = Bucket.b2xx ∧ classify 299 = Bucket.b2xx ∧
     classify 300 = Bucket.b3xx ∧ classify 399 = Bucket.b3xx ∧
     classify 400 = Bucket.b4xx ∧ classify 499 = Bucket.b4xx ∧
     classify 500 = Bucket.b5xx ∧ classify 511 = Bucket.b5xx ∧
     classify 599 = Bucket.others) := by
  refine ⟨bucket_statistics_rsp_code s c, ?_, ?_, ?_, ?_, ?_, ?_, by decide⟩
  all_goals
    intro h
    simp only [classify]
    split_ifs <;> first | rfl | (exfalso; omega)

/-- C8 witness: the classification facts instantiated at a concrete state
and status code. -/
theorem status_classification_witness :
    (∀ b, (statistics_rsp_code Statistics.new 204).bucket b
        = Statistics.new.bucket b + (if b = classify 204 then 1 else 0)) ∧
    ((100 ≤ 204 ∧ 204 < 200) → classify 204 = Bucket.b1xx) ∧
    ((200 ≤ 204 ∧ 204 < 300) → classify 204 = Bucket.b2xx) ∧
    ((300 ≤ 204 ∧ 204 < 400) → classify 204 = Bucket.b3xx) ∧
    ((400 ≤ 204 ∧ 204 < 500) → classify 204 = Bucket.b4xx) ∧
    ((500 ≤ 204 ∧ 204 ≤ 511) → classify 204 = Bucket.b5xx) ∧
    ((204 < 100 ∨ 512 ≤ 204) → classify 204 = Bucket.others) ∧
    (classify 100 = Bucket.b1xx ∧ classify 199 = Bucket.b1xx ∧
     classify 200 = Bucket.b2xx ∧ classify 299 = Bucket.b2xx ∧
     classify 300 = Bucket.b3xx ∧ classify 399 = Bucket.b3xx ∧
     classify 400 = Bucket.b4xx ∧ classify 499 = Bucket.b4xx ∧
     classify 500 = Bucket.b5xx ∧ classify 511 = Bucket.b5xx ∧
     classify 599 = Bucket.others) :=
  status_classification Statistics.new 204

/-- C9: constructing any dispatcher with a present rate of 0 panics inside
`Limiter::new` (`NonZeroU32::new(0).unwrap()`), modelled as `none`; with
rate ≥ 1 limiter and dispatcher construction succeed. -/
theorem zero_rate_construction_panics (total now dur r : Nat)
    (hr : 1 ≤ r) :
    Limiter.new 0 = none ∧
    new_limiter (some 0) = none ∧
    CountDispatcher.new total (some 0) = none ∧
    DurationDispatcher.new now dur (some 0) = none ∧
    Limiter.new r = some ⟨r⟩ ∧
    (∃ s, CountDispatcher.new total (some r) = some s) ∧
    (∃ s, DurationDispatcher.new now dur (some r) = some s) := by
  have hne : r ≠ 0 := Nat.one_le_iff_ne_zero.mp hr
  refine ⟨rfl, rfl, rfl, rfl, ?_, ?_, ?_⟩
  · simp [Limiter.new, hne]
  · exact ⟨⟨total, 0, 0, false, false, some ⟨r⟩⟩,
      by simp [CountDispatcher.new, new_limiter, Limiter.new, hne]⟩
  · exact ⟨⟨0, now, dur, some ⟨r⟩, false, none, false⟩,
      by simp [DurationDispatcher.new, new_limiter, Limiter.new, hne]⟩

/-- C9 witness: the construction facts at rate 1. -/
theorem zero_rate_construction_panics_witness :
    1 ≤ 1 ∧
    (Limiter.new 0 = none ∧
     new_limiter (some 0) = none ∧
     CountDispatcher.new 5 (some 0) = none ∧
     DurationDispatcher.new 0 7 (some 0) = none ∧
     Limiter.new 1 = some ⟨1⟩ ∧
     (∃ s, CountDispatcher.new 5 (some 1) = some s) ∧
     (∃ s, DurationDispatcher.new 0 7 (some 1) = some s)) :=
  ⟨by decide, zero_rate_construction_panics 5 0 7 1 (by decide)⟩

/-- C6: after `cancel`, every `try_apply_job` on either variant returns
false with the state unchanged; `cancel` is idempotent on both variants;
for the duration variant, `canceled_at` is recorded exactly once, at the
first cancel. -/
theorem cancel_semantics (c : CountDispatcher) (d : DurationDispatcher)
    (al al' : List Bool) (t₁ t₂ now : Nat) :
    c.cancel.try_apply_job al = some (false, c.cancel) ∧
    (d.cancel t₁).try_apply_job al' now = some (false, d.cancel t₁) ∧
    c.cancel.cancel = c.cancel ∧
    (d.cancel t₁).cancel t₂ = d.cancel t₁ ∧
    (d.is_canceled = false → (d.cancel t₁).canceled_at = some t₁) ∧
    (d.is_canceled = true → d.cancel t₁ = d) := by
  refine ⟨try_apply_job_count_canceled _ (cancel_count_canceled c) al,
          try_apply_job_duration_canceled _ (cancel_duration_canceled d t₁)
            al' now,
          cancel_count_of_canceled _ (cancel_count_canceled c),
          cancel_duration_of_canceled _ (cancel_duration_canceled d t₁) t₂,
          ?_, ?_⟩
  · intro h
    simp [DurationDispatcher.cancel, h]
  · intro h
    exact cancel_duration_of_canceled d h t₁

/-- C6 witness: cancellation semantics instantiated on a freshly
constructed, not-yet-canceled duration dispatcher and a count dispatcher. -/
theorem cancel_semantics_witness :
    (⟨3, 0, 0, false, false, none⟩ :
        CountDispatcher).cancel.try_apply_job []
      = some (false, (⟨3, 0, 0, false, false, none⟩ :
        CountDispatcher).cancel) ∧
    ((⟨0, 0, 7, none, false, none, false⟩ :
        DurationDispatcher).cancel 4).try_apply_job [] 9
      = some (false, (⟨0, 0, 7, none, false, none, false⟩ :
        DurationDispatcher).cancel 4) ∧
    (⟨3, 0, 0, false, false, none⟩ : CountDispatcher).cancel.cancel
      = (⟨3, 0, 0, false, false, none⟩ : CountDispatcher).cancel ∧
    (((⟨0, 0, 7, none, false, none, false⟩ :
        DurationDispatcher).cancel 4).cancel 8
      = (⟨0, 0, 7, none, false, none, false⟩ :
        DurationDispatcher).cancel 4) ∧
    ((⟨0, 0, 7, none, false, none, false⟩ :
        DurationDispatcher).is_canceled = false →
      ((⟨0, 0, 7, none, false, none, false⟩ :
        DurationDispatcher).cancel 4).canceled_at = some 4) ∧
    ((⟨0, 0, 7, none, false, none, false⟩ :
        DurationDispatcher).is_canceled = true →
      (⟨0, 0, 7, none, false, none, false⟩ :
        DurationDispatcher).cancel 4
        = ⟨0, 0, 7, none, false, none, false⟩) :=
  cancel_semantics ⟨3, 0, 0, false, false, none⟩
    ⟨0, 0, 7, none, false, none, false⟩ [] [] 4 8 9

/-- C3: aggregator message handling is NOT total — on an error
outcome whose reqwest error has no `source()`, `handle_resp_error`
evaluates `err.source().as_ref().unwrap()` and panics (modelled `none`),
for every prior aggregator state. -/
theorem handle_message_sourceless_error_panics (s : Statistics)
    (t₁ t₂ : Nat) (st : Option Nat) :
    handle_message s ⟨t₂, t₁, Outcome.err ⟨none, st⟩⟩ = none := by
  simp [handle_message, handle_resp_error]

/-- C7: for an error-outcome message whose reqwest error does carry a
source message — the only case in which handling completes — `total` is
incremented by 1, the histogram entry of the source message is incremented,
`total_success`, `current_cumulative` and `used_time` are unchanged, and
the matching status bucket is additionally incremented exactly when the
error carries an HTTP status. (On a sourceless error the handler panics
instead; see the C3 theorem.) -/
theorem handle_error_message_effects (s s' : Statistics)
    (e : ReqwestError) (t₁ t₂ : Nat)
    (h : handle_message s ⟨t₂, t₁, Outcome.err e⟩ = some s') :
    s'.total = s.total + 1 ∧
    (∃ msg, e.source = some msg ∧ s'.errors = bump_error s.errors msg) ∧
    s'.total_success = s.total_success ∧
    s'.current_cumulative = s.current_cumulative ∧
    s'.used_time = s.used_time ∧
    (∀ cd, e.status = some cd →
      ∀ b, s'.bucket b = s.bucket b + (if b = classify cd then 1 else 0)) ∧
    (e.status = none → ∀ b, s'.bucket b = s.bucket b) := by
  rcases e with ⟨src, st⟩
  rcases src with _ | msg
  · exact absurd h (by simp [handle_message, handle_resp_error])
  · rcases st with _ | cd
    · have h' :
          ({ s with total := s.total + 1,
                    errors := bump_error s.errors msg } : Statistics)
            = s' := by
        simpa [handle_message, handle_resp_error] using h
      subst h'
      refine ⟨rfl, ⟨msg, rfl, rfl⟩, rfl, rfl, rfl, ?_, ?_⟩
      · intro cd hcd
        exact absurd hcd (by simp)
      · intro _ b
        rfl
    · have h' :
          statistics_rsp_code
            ({ s with total := s.total + 1,
                      errors := bump_error s.errors msg } : Statistics) cd
            = s' := by
        simpa [handle_message, handle_resp_error] using h
      subst h'
      obtain ⟨he, ht, hts, hcc, hut⟩ :=
        statistics_rsp_code_preserves
          ({ s with total := s.total + 1,
                    errors := bump_error s.errors msg } : Statistics) cd
      have hbk :
          ∀ b, ({ s with total := s.total + 1,
                         errors := bump_error s.errors msg } :
                  Statistics).bucket b = s.bucket b := by
        intro b
        rcases b <;> rfl
      refine ⟨by rw [ht], ⟨msg, rfl, by rw [he]⟩, by rw [hts],
              by rw [hcc], by rw [hut], ?_, ?_⟩
      · intro cd' hcd' b
        obtain rfl : cd = cd' := Option.some.inj hcd'
        rw [bucket_statistics_rsp_code, hbk]
      · intro hnone
        exact absurd hnone (by simp)

/-- C7 witness: a concrete error message with a source and a 503 status,
run from the fresh aggregator state. -/
theorem handle_error_message_effects_witness :
    handle_message Statistics.new
        ⟨5, 3, Outcome.err ⟨some "err", some 503⟩⟩
      = some { Statistics.new with
                total := 1, errors := [("err", 1)], rsp5xx := 1 } ∧
    ({ Statistics.new with
        total := 1, errors := [("err", 1)], rsp5xx := 1 : Statistics}.total
      = Statistics.new.total + 1 ∧
     (∃ msg, (⟨some "err", some 503⟩ : ReqwestError).source = some msg ∧
        ({ Statistics.new with
            total := 1, errors := [("err", 1)],
            rsp5xx := 1 : Statistics}.errors
          = bump_error Statistics.new.errors msg)) ∧
     ({ Statistics.new with
        total := 1, errors := [("err", 1)],
        rsp5xx := 1 : Statistics}.total_success
      = Statistics.new.total_success) ∧
     ({ Statistics.new with
        total := 1, errors := [("err", 1)],
        rsp5xx := 1 : Statistics}.current_cumulative
      = Statistics.new.current_cumulative) ∧
     ({ Statistics.new with
        total := 1, errors := [("err", 1)],
        rsp5xx := 1 : Statistics}.used_time
      = Statistics.new.used_time) ∧
     (∀ cd, (⟨some "err", some 503⟩ : ReqwestError).status = some cd →
       ∀ b, ({ Statistics.new with
                total := 1, errors := [("err", 1)],
                rsp5xx := 1 : Statistics}.bucket b
          = Statistics.new.bucket b +
              (if b = classify cd then 1 else 0))) ∧
     ((⟨some "err", some 503⟩ : ReqwestError).status = none →
       ∀ b, ({ Statistics.new with
                total := 1, errors := [("err", 1)],
                rsp5xx := 1 : Statistics}.bucket b
          = Statistics.new.bucket b))) :=
  ⟨by decide,
   handle_error_message_effects Statistics.new
     { Statistics.new with
        total := 1, errors := [("err", 1)], rsp5xx := 1 }
     ⟨some "err", some 503⟩ 3 5 (by decide)⟩

/-- C2 counterexample: on the per-second sample [1, 2, 10] (length > 2,
final partial sample largest), the code function `calculate_max_per_second`
returns 10 — the maximum of the FULL vector — while the trimmed
maximum the claim prescribes is 2. -/
theorem max_rps_trimming_cex :
    calculate_max_per_second [1, 2, 10] 0 = 10 ∧
    specMaxRps [1, 2, 10] 0 = 2 ∧
    calculate_max_per_second [1, 2, 10] 0 ≠ specMaxRps [1, 2, 10] 0 := by
  refine ⟨by decide, by decide, by decide⟩

/-- C2 (amended): `calculate_max_per_second` computes the maximum of the
FULL `req_per_second` vector — the last, partial sample is NOT excluded
(only avg and stdev trim it): for every nonempty S the result is an
element of S and an upper bound of S. -/
theorem max_rps_is_full_max (s : List Nat) (cur : ℚ) (h : s ≠ []) :
    (∃ x ∈ s, (x : ℚ) = calculate_max_per_second s cur) ∧
    ∀ x ∈ s, (x : ℚ) ≤ calculate_max_per_second s cur := by
  match s, h with
  | b :: bs, _ =>
    have hmax : (b :: bs).max? = some (bs.foldl max b) := rfl
    simp only [calculate_max_per_second, hmax]
    constructor
    · rcases foldl_max_mem bs b with h1 | h1
      · exact ⟨b, List.mem_cons_self b bs, by rw [h1]⟩
      · exact ⟨bs.foldl max b, List.mem_cons_of_mem b h1, rfl⟩
    · intro x hx
      obtain ⟨h1, h2⟩ := le_foldl_max bs b
      rcases List.mem_cons.mp hx with rfl | hx
      · exact_mod_cast h1
      · exact_mod_cast h2 x hx

/-- C2 witness: the full-vector maximum on the sample [3, 7, 5]. -/
theorem max_rps_is_full_max_witness :
    ([3, 7, 5] : List Nat) ≠ [] ∧
    ((∃ x ∈ ([3, 7, 5] : List Nat),
        (x : ℚ) = calculate_max_per_second [3, 7, 5] 0) ∧
      ∀ x ∈ ([3, 7, 5] : List Nat),
        (x : ℚ) ≤ calculate_max_per_second [3, 7, 5] 0) :=
  ⟨by decide, max_rps_is_full_max [3, 7, 5] 0 (by decide)⟩

theorem admissionResults_count_true (total : Nat)
    (es : List AdmissionEvent) (a : Nat) :
    (admissionResults total es a).count true
      = min (fadds es) (total - a) := by
  induction es generalizing a with
  | nil => simp [admissionResults, fadds]
  | cons e es ih =>
    cases e with
    | gate =>
      simp [admissionResults, fadds, List.count_cons, ih a]
    | fadd =>
      simp only [admissionResults, fadds]
      by_cases h : a < total
      · rw [decide_eq_true h, List.count_cons_self, ih (a + 1)]
        omega
      · rw [decide_eq_false h, List.count_cons_of_ne (by decide),
            ih (a + 1)]
        omega

/-- C1: across every realizable interleaving of concurrent
`try_apply_job` calls on a count dispatcher with `total = N`, the number
of admissions (true returns) equals N as soon as at least N calls reach
the `fetch_add` on `applied` (the linearization point); it never exceeds
N; and any call whose `fetch_add` observes a previous value ≥ N returns
false. -/
theorem count_mode_admits_exactly_total (total : Nat)
    (es : List AdmissionEvent) (_hwf : gateValid total es 0 = true)
    (henough : total ≤ fadds es) :
    (admissionResults total es 0).count true = total ∧
    (admissionResults total es 0).count true ≤ total ∧
    (∀ (a : Nat) (rest : List AdmissionEvent), total ≤ a →
      (admissionResults total (AdmissionEvent.fadd :: rest) a).head?
        = some false) := by
  have hmain := admissionResults_count_true total es 0
  refine ⟨?_, ?_, ?_⟩
  · rw [hmain]
    omega
  · rw [hmain]
    omega
  · intro a rest ha
    have hdec : decide (a < total) = false :=
      decide_eq_false (Nat.not_lt.mpr ha)
    simp [admissionResults, hdec]

/-- C1 witness: three calls reach the fetch_add and the load of one later
call observes the exhausted counter, with total = 2: exactly 2 admissions. -/
theorem count_mode_admits_exactly_total_witness :
    gateValid 2 [AdmissionEvent.fadd, AdmissionEvent.fadd,
        AdmissionEvent.fadd, AdmissionEvent.gate] 0 = true ∧
    2 ≤ fadds [AdmissionEvent.fadd, AdmissionEvent.fadd,
        AdmissionEvent.fadd, AdmissionEvent.gate] ∧
    ((admissionResults 2 [AdmissionEvent.fadd, AdmissionEvent.fadd,
        AdmissionEvent.fadd, AdmissionEvent.gate] 0).count true = 2 ∧
     (admissionResults 2 [AdmissionEvent.fadd, AdmissionEvent.fadd,
        AdmissionEvent.fadd, AdmissionEvent.gate] 0).count true ≤ 2 ∧
     (∀ (a : Nat) (rest : List AdmissionEvent), 2 ≤ a →
       (admissionResults 2 (AdmissionEvent.fadd :: rest) a).head?
         = some false)) :=
  ⟨by decide, by decide,
   count_mode_admits_exactly_total 2
     [AdmissionEvent.fadd, AdmissionEvent.fadd, AdmissionEvent.fadd,
      AdmissionEvent.gate] (by decide) (by decide)⟩

theorem foldl_push_filterMap {α β : Type} (g : α → Option β) :
    ∀ (ps : List α) (acc : List β),
      ps.foldl (fun l p => (g p).elim l (fun x => l ++ [x])) acc
        = acc ++ ps.filterMap g := by
  intro ps
  induction ps with
  | nil =>
    intro acc
    simp
  | cons p ps ih =>
    intro acc
    simp only [List.foldl_cons, List.filterMap_cons]
    cases hfp : g p with
    | none => simp [hfp, ih]
    | some x => simp [hfp, ih]

/-- C5: for a nonempty latency sample list, `calculate_latencies` emits,
in the order of the operator percentile list, exactly the pairs
`(p, mean of the lowest ⌊|L|·p⌋ sorted samples)` for those percentiles
whose `k = ⌊|L|·p⌋` satisfies `0 < k ≤ |L|`, skipping the rest. (The
`count as f32 * percent` product is modelled exactly over `ℚ`; the mean
is the truncating Duration division of the code.) -/
theorem latencies_percentile_slices (L : List Nat) (ps : List ℚ)
    (h : L ≠ []) :
    calculate_latencies L ps
      = ps.filterMap
          (specLatency L.length (L.mergeSort (fun a b => a ≤ b))) := by
  have hbody :
      (fun (latencies : List (ℚ × Nat)) (percent : ℚ) =>
        if L.length < ⌊(L.length : ℚ) * percent⌋₊ ∨
            ⌊(L.length : ℚ) * percent⌋₊ = 0 then latencies
        else
          latencies ++
            [(percent,
              ((L.mergeSort (fun a b => a ≤ b)).take
                  ⌊(L.length : ℚ) * percent⌋₊).sum /
                ⌊(L.length : ℚ) * percent⌋₊)])
      = fun (l : List (ℚ × Nat)) p =>
          (specLatency L.length (L.mergeSort (fun a b => a ≤ b)) p).elim
            l (fun x => l ++ [x]) := by
    funext l p
    simp only [specLatency]
    by_cases hk : 0 < ⌊(L.length : ℚ) * p⌋₊ ∧
        ⌊(L.length : ℚ) * p⌋₊ ≤ L.length
    · rw [if_pos hk, if_neg (by omega)]
      simp
    · rw [if_neg hk, if_pos (by omega)]
      simp
  calc calculate_latencies L ps
      = ps.foldl
          (fun latencies percent =>
            if L.length < ⌊(L.length : ℚ) * percent⌋₊ ∨
                ⌊(L.length : ℚ) * percent⌋₊ = 0 then latencies
            else
              latencies ++
                [(percent,
                  ((L.mergeSort (fun a b => a ≤ b)).take
                      ⌊(L.length : ℚ) * percent⌋₊).sum /
                    ⌊(L.length : ℚ) * percent⌋₊)]) [] := by
        simp only [calculate_latencies, if_neg h]
    _ = ps.filterMap
          (specLatency L.length (L.mergeSort (fun a b => a ≤ b))) := by
        rw [hbody, foldl_push_filterMap
          (specLatency L.length (L.mergeSort (fun a b => a ≤ b))) ps []]
        simp

/-- C5 witness: latency samples [100, 200, 300, 400] with percentiles
1/2 and 3/4 give means 150 and 200 of the lowest two and three samples. -/
theorem latencies_percentile_slices_witness :
    ([100, 200, 300, 400] : List Nat) ≠ [] ∧
    calculate_latencies [100, 200, 300, 400] [1/2, 3/4]
      = ([1/2, 3/4] : List ℚ).filterMap
          (specLatency ([100, 200, 300, 400] : List Nat).length
            (([100, 200, 300, 400] : List Nat).mergeSort
              (fun a b => a ≤ b))) :=
  ⟨by decide,
   latencies_percentile_slices [100, 200, 300, 400] [1/2, 3/4]
     (by decide)⟩

/-- C4 counterexample: the freshly constructed (hence reachable) duration
dispatcher with a 5-second duration, not yet done or canceled, asked for
progress 10 seconds after its start, reports 2.0 — `get_process` performs
no clamping to [0,1]. -/
theorem duration_progress_exceeds_one_cex :
    (DurationDispatcher.new 0 5000000000 none).map
        (fun s => s.get_process 10000000000) = some (some 2) ∧
    ¬ ((2 : ℚ) ≤ 1) := by
  constructor
  · rw [show DurationDispatcher.new 0 5000000000 none
        = some ⟨0, 0, 5000000000, none, false, none, false⟩ from rfl]
    have h2 : (⟨0, 0, 5000000000, none, false, none, false⟩ :
        DurationDispatcher).get_process 10000000000 = some 2 := by
      norm_num [DurationDispatcher.get_process,
        DurationDispatcher.run_secs, nanosPerSec]
    simp [h2]
  · norm_num

/-- C4 (amended): both variants return 1.0 when done. When not done, the
count variant returns `completed / total` (in [0,1] whenever
`completed ≤ total` and `total ≠ 0`), and the duration variant returns
`run_secs / duration_secs` — whole-second counts, with `run_secs`
derived from `canceled_at` when canceled (else from `now`) — a
nonnegative value that is NOT clamped and may exceed 1. -/
theorem get_process_formulas (cd : CountDispatcher)
    (dd : DurationDispatcher) (now : Nat) (hct : cd.total ≠ 0)
    (hcc : cd.completed ≤ cd.total)
    (hdd : dd.duration / nanosPerSec ≠ 0) :
    (cd.is_done = true → cd.get_process = some 1) ∧
    (dd.is_done = true → dd.get_process now = some 1) ∧
    (cd.is_done = false →
      cd.get_process = some ((cd.completed : ℚ) / (cd.total : ℚ)) ∧
      ∀ q, cd.get_process = some q → 0 ≤ q ∧ q ≤ 1) ∧
    (dd.is_done = false →
      dd.get_process now
        = some ((dd.run_secs now : ℚ) /
            ((dd.duration / nanosPerSec : Nat) : ℚ)) ∧
      ∀ q, dd.get_process now = some q → 0 ≤ q) ∧
    (dd.is_canceled = true → ∀ c, dd.canceled_at = some c →
      dd.run_secs now = (c - dd.start) / nanosPerSec) ∧
    (dd.is_canceled = false →
      dd.run_secs now = (now - dd.start) / nanosPerSec) := by
  refine ⟨?_, ?_, ?_, ?_, ?_, ?_⟩
  · intro h
    simp [CountDispatcher.get_process, h]
  · intro h
    simp [DurationDispatcher.get_process, h]
  · intro h
    have hval : cd.get_process
        = some ((cd.completed : ℚ) / (cd.total : ℚ)) := by
      simp [CountDispatcher.get_process, h, hct]
    refine ⟨hval, ?_⟩
    intro q hq
    rw [hval] at hq
    obtain rfl := (Option.some.inj hq).symm
    constructor
    · positivity
    · rw [div_le_one (by exact_mod_cast Nat.pos_of_ne_zero hct)]
      exact_mod_cast hcc
  · intro h
    have hval : dd.get_process now
        = some ((dd.run_secs now : ℚ) /
            ((dd.duration / nanosPerSec : Nat) : ℚ)) := by
      simp [DurationDispatcher.get_process, h, hdd]
    refine ⟨hval, ?_⟩
    intro q hq
    rw [hval] at hq
    obtain rfl := (Option.some.inj hq).symm
    positivity
  · intro h c hc
    simp [DurationDispatcher.run_secs, h, hc]
  · intro h
    simp [DurationDispatcher.run_secs, h]

/-- C4 witness: the formulas instantiated on a half-done count dispatcher
(total 2, completed 1) and a not-yet-done 5-second duration dispatcher
observed 3 seconds in. -/
theorem get_process_formulas_witness :
    (⟨2, 2, 1, false, false, none⟩ : CountDispatcher).total ≠ 0 ∧
    (⟨2, 2, 1, false, false, none⟩ : CountDispatcher).completed ≤
      (⟨2, 2, 1, false, false, none⟩ : CountDispatcher).total ∧
    (⟨0, 0, 5000000000, none, false, none, false⟩ :
        DurationDispatcher).duration / nanosPerSec ≠ 0 ∧
    (((⟨2, 2, 1, false, false, none⟩ : CountDispatcher).is_done = true →
        (⟨2, 2, 1, false, false, none⟩ :
          CountDispatcher).get_process = some 1) ∧
     ((⟨0, 0, 5000000000, none, false, none, false⟩ :
        DurationDispatcher).is_done = true →
        (⟨0, 0, 5000000000, none, false, none, false⟩ :
          DurationDispatcher).get_process 3000000000 = some 1) ∧
     ((⟨2, 2, 1, false, false, none⟩ : CountDispatcher).is_done = false →
        (⟨2, 2, 1, false, false, none⟩ : CountDispatcher).get_process
          = some (((⟨2, 2, 1, false, false, none⟩ :
              CountDispatcher).completed : ℚ) /
              ((⟨2, 2, 1, false, false, none⟩ :
              CountDispatcher).total : ℚ)) ∧
        ∀ q, (⟨2, 2, 1, false, false, none⟩ :
            CountDispatcher).get_process = some q → 0 ≤ q ∧ q ≤ 1) ∧
     ((⟨0, 0, 5000000000, none, false, none, false⟩ :
        DurationDispatcher).is_done = false →
        (⟨0, 0, 5000000000, none, false, none, false⟩ :
          DurationDispatcher).get_process 3000000000
          = some (((⟨0, 0, 5000000000, none, false, none, false⟩ :
              DurationDispatcher).run_secs 3000000000 : ℚ) /
              (((⟨0, 0, 5000000000, none, false, none, false⟩ :
              DurationDispatcher).duration / nanosPerSec : Nat) : ℚ)) ∧
        ∀ q, (⟨0, 0, 5000000000, none, false, none, false⟩ :
            DurationDispatcher).get_process 3000000000 = some q →
          0 ≤ q) ∧
     ((⟨0, 0, 5000000000, none, false, none, false⟩ :
        DurationDispatcher).is_canceled = true →
       ∀ c, (⟨0, 0, 5000000000, none, false, none, false⟩ :
          DurationDispatcher).canceled_at = some c →
         (⟨0, 0, 5000000000, none, false, none, false⟩ :
          DurationDispatcher).run_secs 3000000000
           = (c - (⟨0, 0, 5000000000, none, false, none, false⟩ :
              DurationDispatcher).start) / nanosPerSec) ∧
     ((⟨0, 0, 5000000000, none, false, none, false⟩ :
        DurationDispatcher).is_canceled = false →
        (⟨0, 0, 5000000000, none, false, none, false⟩ :
          DurationDispatcher).run_secs 3000000000
          = (3000000000 - (⟨0, 0, 5000000000, none, false, none, false⟩ :
              DurationDispatcher).start) / nanosPerSec)) :=
  ⟨by decide, by decide, by decide,
   get_process_formulas ⟨2, 2, 1, false, false, none⟩
     ⟨0, 0, 5000000000, none, false, none, false⟩ 3000000000
     (by decide) (by decide) (by decide)⟩

theorem countReach_zero_invariant (s : CountDispatcher) (n : Nat)
    (h : CountReach 0 none s n) :
    s.total = 0 ∧ s.applied = 0 ∧ s.completed = 0 ∧
    s.is_done = false ∧ s.limiter = none ∧ n = 0 := by
  induction h with
  | init s hs =>
    rw [show CountDispatcher.new 0 none
        = some ⟨0, 0, 0, false, false, none⟩ from rfl] at hs
    obtain rfl := Option.some.inj hs
    exact ⟨rfl, rfl, rfl, rfl, rfl, rfl⟩
  | try_step s n allows r s' hreach htry ih =>
    obtain ⟨ht, ha, hc, hd, hl, hn⟩ := ih
    have hres : s.try_apply_job allows = some (false, s) := by
      by_cases hcan : s.is_canceled
      · exact try_apply_job_count_canceled s hcan allows
      · simp [CountDispatcher.try_apply_job, CountDispatcher.apply_token,
              CountDispatcher.is_canceled_or_done, hcan, hd, hl, ht, ha]
    rw [hres] at htry
    obtain ⟨hr, hs'⟩ := Prod.mk.injEq _ _ _ _ |>.mp (Option.some.inj htry)
    subst hr
    subst hs'
    simpa [hn] using ⟨ht, ha, hc, hd, hl⟩
  | complete_step s n hreach ih =>
    omega
  | cancel_step s n hreach ih =>
    obtain ⟨ht, ha, hc, hd, hl, hn⟩ := ih
    unfold CountDispatcher.cancel
    split
    · exact ⟨ht, ha, hc, hd, hl, hn⟩
    · exact ⟨ht, ha, hc, hd, hl, hn⟩

/-- C10: for a count dispatcher constructed with total = 0 and no limiter,
in every state reachable under the worker protocol: every `try_apply_job`
call returns false (leaving the state unchanged), no job is ever in
flight (so `complete_job` is never reached), `is_done` is never set, and
`get_process` evaluates `0.0 / 0.0`, whose non-finite (NaN) result is
modelled as `none` — not a value in [0,1]. -/
theorem zero_total_dispatcher_inert (s : CountDispatcher) (n : Nat)
    (h : CountReach 0 none s n) :
    (∀ allows, s.try_apply_job allows = some (false, s)) ∧
    n = 0 ∧
    s.is_done = false ∧
    s.get_process = none := by
  obtain ⟨ht, ha, hc, hd, hl, hn⟩ := countReach_zero_invariant s n h
  refine ⟨?_, hn, hd, ?_⟩
  · intro allows
    by_cases hcan : s.is_canceled
    · exact try_apply_job_count_canceled s hcan allows
    · simp [CountDispatcher.try_apply_job, CountDispatcher.apply_token,
            CountDispatcher.is_canceled_or_done, hcan, hd, hl, ht, ha]
  · simp [CountDispatcher.get_process, hd, ht, hc]

/-- C10 witness: the freshly constructed total-0 dispatcher. -/
theorem zero_total_dispatcher_inert_witness :
    (∀ allows, (⟨0, 0, 0, false, false, none⟩ :
        CountDispatcher).try_apply_job allows
      = some (false, ⟨0, 0, 0, false, false, none⟩)) ∧
    (0 : Nat) = 0 ∧
    (⟨0, 0, 0, false, false, none⟩ :
        CountDispatcher).is_done = false ∧
    (⟨0, 0, 0, false, false, none⟩ :
        CountDispatcher).get_process = none :=
  zero_total_dispatcher_inert ⟨0, 0, 0, false, false, none⟩ 0
    (CountReach.init ⟨0, 0, 0, false, false, none⟩ rfl)

end Rsb
